import Mathlib

/-!
Shallow embedding of `src/WatchServerFile.go` (package watchserverfile).

The Go program runs three concurrent tasks over one shared `Server` value:

* the reload-coordinator goroutine spawned inside `ListenAndServe`
  (lines 40-47): a perpetual loop of `ws.Handler(nil)`, `ws.reloadFunc(ws)`
  and a send on `ws.reloadServe`;
* the main task: the initial `ws.reloadFunc(ws)` call (line 49) followed by
  `listenAndServe` (lines 58-76), which calls `net.Listen` once and then
  loops spawning a serve cycle and receiving from `reloadServe`;
* the watcher goroutine `watchFile` (lines 80-92).

Both channels are created with capacity 1 (`New`, lines 99-100); they are
embedded as lists bounded by that capacity, a blocked send or receive being a
disabled step that leaves the state unchanged.  The user-supplied rebuild
callback is not repository code; following the contract stated for it
(it must consume the next pending change by a blocking read of `ReloadFile`
and install a new handler before returning) it is embedded as one atomic
step.  An execution is an arbitrary interleaving: a list of task identifiers
folded over the step function, so every theorem quantified over schedules
covers all interleavings of the three tasks.
-/

/-- Op bit value `fsnotify.Create` of fsnotify v1. -/
def fsnotifyCreate : Nat := 1

/-- Op bit value `fsnotify.Write` of fsnotify v1, the bit tested by the
filter on line 84. -/
def fsnotifyWrite : Nat := 2

/-- Op bit value `fsnotify.Remove` of fsnotify v1. -/
def fsnotifyRemove : Nat := 4

/-- Op bit value `fsnotify.Rename` of fsnotify v1. -/
def fsnotifyRename : Nat := 8

/-- Op bit value `fsnotify.Chmod` of fsnotify v1. -/
def fsnotifyChmod : Nat := 16

/-- One raw fsnotify event: an op bitmask and the name of the file it
concerns (`event.Op`, `event.Name`). -/
structure FsEvent where
  op : Nat
  name : String
deriving DecidableEq

/-- One item arriving at the `select` of `watchFile` (lines 82-90): either a
raw event from `watcher.Events` or an error from `watcher.Errors`. -/
inductive WatchInput where
  | ev (e : FsEvent)
  | err (msg : String)
deriving DecidableEq

/-- The guard of line 84: `event.Op&fsnotify.Write == fsnotify.Write`. -/
def isWriteEvent (e : FsEvent) : Bool :=
  e.op &&& fsnotifyWrite == fsnotifyWrite

/-- Program counter of the reload-coordinator goroutine (lines 41-46). -/
inductive CoordPC where
  | clearH
  | rebuildRecv
  | sigSend
deriving DecidableEq

/-- Program counter of the main task: the initial rebuild call of
`ListenAndServe` (line 49) followed by `listenAndServe` (lines 58-76).
`retErr e` is the terminal state in which `listenAndServe` has returned the
`net.Listen` error `e` (line 65). -/
inductive MainPC where
  | rebuildRecv
  | bindStep
  | spawnStep
  | serveRecv
  | retErr (e : String)
deriving DecidableEq

/-- Task identifiers for the three concurrent tasks. -/
inductive Tid where
  | coord
  | main
  | watcher
deriving DecidableEq

/-- Global state of the embedded system: the `Server` struct of the Go code
(lines 17-23) together with execution bookkeeping for the three tasks.

* `bindErr` is the environment's fixed answer for `net.Listen` on the chosen
  address (`none` means the bind succeeds); it is never written by a step.
* `handler` is the `http.Server.Handler` field; `none` is the nil handler
  set by `ws.Handler(nil)`.  Installed handlers are numbered consecutively.
* `ReloadFile` and `reloadServe` are the two channels, as bounded buffers.
* `inputs` is the stream still to arrive at the `select` of `watchFile`.
* `clears`, `coordRets`, `mainRets`, `installs`, `sigSends`, `sigRecvs`,
  `binds`, `spawns` count occurrences of the corresponding actions;
  `closes` counts executed `Close` calls on the listener (the `defer
  l.Close()` of line 69 only runs when `listenAndServe` returns, which after
  a successful bind never happens, so no step increments it).
* `spawned` records, per spawned serve cycle in order, the handler value the
  `Server` held at the moment of the spawn (lines 70-73).
* `recvNames` records, in order, the values received from `ReloadFile`.
* `logs` records the log lines written (lines 85 and 89). -/
structure Server where
  bindErr : Option String
  handler : Option Nat
  ReloadFile : List String
  reloadServe : List Unit
  coordPC : CoordPC
  mainPC : MainPC
  inputs : List WatchInput
  clears : Nat
  coordRets : Nat
  mainRets : Nat
  installs : Nat
  sigSends : Nat
  sigRecvs : Nat
  binds : Nat
  closes : Nat
  spawns : Nat
  spawned : List (Option Nat)
  recvNames : List String
  logs : List String
deriving DecidableEq

/-- Capacity of the `ReloadFile` channel: `make(chan string, 1)` (line 99). -/
def reloadFileCap : Nat := 1

/-- Capacity of the `reloadServe` channel: capacity 1 (line 100). -/
def reloadServeCap : Nat := 1

/-- One step of the reload-coordinator goroutine (lines 41-46): clear the
handler (line 43), run the rebuild callback (line 44), send on `reloadServe`
(line 45, blocking while the buffer is full), and loop.  The rebuild
callback is not repository code; modelled from the spec: it blocks reading
the next `ReloadFile` entry and installs a fresh handler before returning,
taken here as one atomic step. -/
def coordStep (s : Server) : Server :=
  match s.coordPC with
  | .clearH =>
      { s with handler := none, clears := s.clears + 1,
               coordPC := .rebuildRecv }
  | .rebuildRecv =>
      match s.ReloadFile with
      | [] => s
      | n :: rest =>
          { s with ReloadFile := rest, recvNames := s.recvNames ++ [n],
                   handler := some (s.installs + 1),
                   installs := s.installs + 1,
                   coordRets := s.coordRets + 1, coordPC := .sigSend }
  | .sigSend =>
      if s.reloadServe.length < reloadServeCap then
        { s with reloadServe := s.reloadServe ++ [()],
                 sigSends := s.sigSends + 1, coordPC := .clearH }
      else s

/-- One step of the main task.  `rebuildRecv` is the initial
`ws.reloadFunc(ws)` call of line 49 (same spec-modelled callback as in
`coordStep`); `bindStep` is the single `net.Listen` call of line 63, whose
outcome is the fixed `bindErr` (an error is returned immediately, line 65);
`spawnStep` spawns a serve cycle on the one listener, recording the handler
the server holds at that moment (lines 68-73); `serveRecv` is the blocking
receive `<-ws.reloadServe` of line 74. -/
def mainStep (s : Server) : Server :=
  match s.mainPC with
  | .rebuildRecv =>
      match s.ReloadFile with
      | [] => s
      | n :: rest =>
          { s with ReloadFile := rest, recvNames := s.recvNames ++ [n],
                   handler := some (s.installs + 1),
                   installs := s.installs + 1,
                   mainRets := s.mainRets + 1, mainPC := .bindStep }
  | .bindStep =>
      match s.bindErr with
      | some e => { s with binds := s.binds + 1, mainPC := .retErr e }
      | none => { s with binds := s.binds + 1, mainPC := .spawnStep }
  | .spawnStep =>
      { s with spawned := s.spawned ++ [s.handler], spawns := s.spawns + 1,
               mainPC := .serveRecv }
  | .serveRecv =>
      match s.reloadServe with
      | [] => s
      | _ :: rest =>
          { s with reloadServe := rest, sigRecvs := s.sigRecvs + 1,
                   mainPC := .spawnStep }
  | .retErr _ => s

/-- One step of the watcher goroutine `watchFile` (lines 80-92): an error
from `watcher.Errors` is logged and the loop continues (line 89); an event
from `watcher.Events` whose op has the write bit is logged and its name sent
on `ReloadFile` (lines 84-86) — the send blocks while the buffer is full, so
the input stays pending; any other event is discarded by the filter. -/
def watchFileStep (s : Server) : Server :=
  match s.inputs with
  | [] => s
  | .err e :: rest =>
      { s with inputs := rest,
               logs := s.logs ++ ["Watcher Error: " ++ e] }
  | .ev ev :: rest =>
      if isWriteEvent ev then
        if s.ReloadFile.length < reloadFileCap then
          { s with ReloadFile := s.ReloadFile ++ [ev.name], inputs := rest,
                   logs := s.logs ++ ["Reloading the file..."] }
        else s
      else { s with inputs := rest }

/-- Address defaulting at the top of `listenAndServe` (lines 59-62): an
empty address becomes `:http`. -/
def effectiveAddr (addr : String) : String :=
  if addr = "" then ":http" else addr

/-- Content of the `ReloadFile` channel right after `New` returns: the
capacity-1 channel (line 99) holding the single pre-sent watched filename
(line 112). -/
def newReloadFile (filename : String) : List String :=
  [filename]

/-- Content of `reloadServe` right after `New` returns: created empty with
capacity 1 (line 100). -/
def newReloadServe : List Unit :=
  []

/-- State after `New filename` returns (lines 97-115, the path on which the
watcher setup succeeded) followed by the prologue of `ListenAndServe`
(lines 36-40): the channels as `New` left them, nil handler, the coordinator
goroutine at its loop head, the main task inside the initial rebuild call,
the watcher loop facing `inputs`, all counters zero. -/
def initSys (filename : String) (bindErr : Option String)
    (inputs : List WatchInput) : Server :=
  { bindErr := bindErr, handler := none,
    ReloadFile := newReloadFile filename, reloadServe := newReloadServe,
    coordPC := .clearH, mainPC := .rebuildRecv, inputs := inputs,
    clears := 0, coordRets := 0, mainRets := 0, installs := 0,
    sigSends := 0, sigRecvs := 0, binds := 0, closes := 0, spawns := 0,
    spawned := [], recvNames := [], logs := [] }

/-- One interleaving step: the scheduled task moves if enabled, else the
state is unchanged. -/
def step (s : Server) : Tid → Server
  | .coord => coordStep s
  | .main => mainStep s
  | .watcher => watchFileStep s

/-- Run a finite schedule from a state. -/
def run (s : Server) (sched : List Tid) : Server :=
  sched.foldl step s

/-- Shorthand for a raw write event carrying a file name. -/
def wEv (name : String) : WatchInput :=
  .ev { op := fsnotifyWrite, name := name }

example :
    (run (initSys "f" none []) [Tid.main, Tid.main, Tid.main]).spawns = 1 := by
  decide

/-- System invariant, preserved by every step of every task.  The two
program-counter blocks tie each task's counters to its loop phase; the last
conjuncts are the global accounting facts: installs happen exactly inside
rebuild returns, every buffered or received signal was sent, both channels
respect their capacity 1, the listener is never closed. -/
def SysInv (s : Server) : Prop :=
  (s.coordPC = .clearH → s.clears = s.sigSends ∧ s.coordRets = s.sigSends) ∧
  (s.coordPC = .rebuildRecv →
      s.clears = s.sigSends + 1 ∧ s.coordRets = s.sigSends) ∧
  (s.coordPC = .sigSend →
      s.clears = s.sigSends + 1 ∧ s.coordRets = s.sigSends + 1) ∧
  (s.mainPC = .rebuildRecv →
      s.mainRets = 0 ∧ s.binds = 0 ∧ s.spawns = 0 ∧ s.sigRecvs = 0) ∧
  (s.mainPC = .bindStep →
      s.mainRets = 1 ∧ s.binds = 0 ∧ s.spawns = 0 ∧ s.sigRecvs = 0) ∧
  (s.mainPC = .spawnStep →
      s.mainRets = 1 ∧ s.binds = 1 ∧ s.bindErr = none ∧
        s.spawns = s.sigRecvs) ∧
  (s.mainPC = .serveRecv →
      s.mainRets = 1 ∧ s.binds = 1 ∧ s.bindErr = none ∧
        s.spawns = s.sigRecvs + 1) ∧
  (∀ e, s.mainPC = .retErr e →
      s.bindErr = some e ∧ s.mainRets = 1 ∧ s.binds = 1 ∧ s.spawns = 0 ∧
        s.sigRecvs = 0) ∧
  s.closes = 0 ∧
  s.installs = s.coordRets + s.mainRets ∧
  s.sigSends = s.sigRecvs + s.reloadServe.length ∧
  s.reloadServe.length ≤ reloadServeCap ∧
  s.ReloadFile.length ≤ reloadFileCap

theorem sysInv_initSys (filename : String) (bindErr : Option String)
    (inputs : List WatchInput) : SysInv (initSys filename bindErr inputs) := by
  simp [SysInv, initSys, newReloadFile, newReloadServe, reloadFileCap,
    reloadServeCap]

theorem sysInv_coordStep (s : Server) (h : SysInv s) : SysInv (coordStep s) := by
  obtain ⟨hc1, hc2, hc3, hm1, hm2, hm3, hm4, hm5, hcl, hin, hacc, hl1, hl2⟩ := h
  cases hpc : s.coordPC with
  | clearH =>
      obtain ⟨e1, e2⟩ := hc1 hpc
      simp only [coordStep, hpc]
      exact ⟨by simp, by simp [e1, e2], by simp,
        hm1, hm2, hm3, hm4, hm5, hcl, hin, hacc, hl1, hl2⟩
  | rebuildRecv =>
      obtain ⟨e1, e2⟩ := hc2 hpc
      cases hrf : s.ReloadFile with
      | nil =>
          simp only [coordStep, hpc, hrf]
          exact ⟨hc1, hc2, hc3, hm1, hm2, hm3, hm4, hm5, hcl, hin, hacc,
            hl1, hl2⟩
      | cons n rest =>
          simp only [coordStep, hpc, hrf]
          refine ⟨by simp, by simp, by simp [e1, e2], hm1, hm2, hm3, hm4,
            hm5, hcl, ?_, hacc, hl1, ?_⟩
          · simp; omega
          · have hl := hl2
            rw [hrf] at hl
            simp at hl ⊢
            omega
  | sigSend =>
      obtain ⟨e1, e2⟩ := hc3 hpc
      by_cases hroom : s.reloadServe.length < reloadServeCap
      · simp only [coordStep, hpc, if_pos hroom]
        refine ⟨by simp [e1, e2], by simp, by simp, hm1, hm2, hm3, hm4,
          hm5, hcl, hin, ?_, ?_, hl2⟩
        · simp; omega
        · simpa using hroom
      · simp only [coordStep, hpc, if_neg hroom]
        exact ⟨hc1, hc2, hc3, hm1, hm2, hm3, hm4, hm5, hcl, hin, hacc,
          hl1, hl2⟩

theorem sysInv_mainStep (s : Server) (h : SysInv s) : SysInv (mainStep s) := by
  obtain ⟨hc1, hc2, hc3, hm1, hm2, hm3, hm4, hm5, hcl, hin, hacc, hl1, hl2⟩ := h
  cases hpc : s.mainPC with
  | rebuildRecv =>
      obtain ⟨e1, e2, e3, e4⟩ := hm1 hpc
      cases hrf : s.ReloadFile with
      | nil =>
          simp only [mainStep, hpc, hrf]
          exact ⟨hc1, hc2, hc3, hm1, hm2, hm3, hm4, hm5, hcl, hin, hacc,
            hl1, hl2⟩
      | cons n rest =>
          simp only [mainStep, hpc, hrf]
          refine ⟨hc1, hc2, hc3, by simp, by simp [e1, e2, e3, e4],
            by simp, by simp, by simp, hcl, ?_, hacc, hl1, ?_⟩
          · simp; omega
          · have hl := hl2
            rw [hrf] at hl
            simp at hl ⊢
            omega
  | bindStep =>
      obtain ⟨e1, e2, e3, e4⟩ := hm2 hpc
      cases hbe : s.bindErr with
      | some e =>
          simp only [mainStep, hpc, hbe]
          refine ⟨hc1, hc2, hc3, by simp, by simp, by simp, by simp,
            ?_, hcl, hin, hacc, hl1, hl2⟩
          intro x hx
          simp at hx
          subst hx
          exact ⟨by simp, e1, by simp [e2], e3, e4⟩
      | none =>
          simp only [mainStep, hpc, hbe]
          exact ⟨hc1, hc2, hc3, by simp, by simp,
            by simp [e1, e2, e3, e4, hbe], by simp, by simp, hcl, hin,
            hacc, hl1, hl2⟩
  | spawnStep =>
      obtain ⟨e1, e2, e3, e4⟩ := hm3 hpc
      simp only [mainStep, hpc]
      exact ⟨hc1, hc2, hc3, by simp, by simp, by simp,
        by simp [e1, e2, e3, e4], by simp, hcl, hin, hacc, hl1, hl2⟩
  | serveRecv =>
      obtain ⟨e1, e2, e3, e4⟩ := hm4 hpc
      cases hrs : s.reloadServe with
      | nil =>
          simp only [mainStep, hpc, hrs]
          exact ⟨hc1, hc2, hc3, hm1, hm2, hm3, hm4, hm5, hcl, hin, hacc,
            hl1, hl2⟩
      | cons u rest =>
          simp only [mainStep, hpc, hrs]
          refine ⟨hc1, hc2, hc3, by simp, by simp,
            by simp [e1, e2, e3, e4], by simp, by simp, hcl, hin, ?_, ?_,
            hl2⟩
          · have ha := hacc
            rw [hrs] at ha
            simp at ha ⊢
            omega
          · have hl := hl1
            rw [hrs] at hl
            simp at hl ⊢
            omega
  | retErr e =>
      simp only [mainStep, hpc]
      exact ⟨hc1, hc2, hc3, hm1, hm2, hm3, hm4, hm5, hcl, hin, hacc,
        hl1, hl2⟩

theorem sysInv_watchFileStep (s : Server) (h : SysInv s) :
    SysInv (watchFileStep s) := by
  obtain ⟨hc1, hc2, hc3, hm1, hm2, hm3, hm4, hm5, hcl, hin, hacc, hl1, hl2⟩ := h
  cases hi : s.inputs with
  | nil =>
      simp only [watchFileStep, hi]
      exact ⟨hc1, hc2, hc3, hm1, hm2, hm3, hm4, hm5, hcl, hin, hacc,
        hl1, hl2⟩
  | cons x rest =>
      cases x with
      | err e =>
          simp only [watchFileStep, hi]
          exact ⟨hc1, hc2, hc3, hm1, hm2, hm3, hm4, hm5, hcl, hin, hacc,
            hl1, hl2⟩
      | ev ev =>
          by_cases hw : isWriteEvent ev
          · by_cases hroom : s.ReloadFile.length < reloadFileCap
            · simp only [watchFileStep, hi, hw, if_pos hroom, if_true]
              refine ⟨hc1, hc2, hc3, hm1, hm2, hm3, hm4, hm5, hcl, hin,
                hacc, hl1, ?_⟩
              show (s.ReloadFile ++ [ev.name]).length ≤ reloadFileCap
              rw [List.length_append]
              exact hroom
            · simp only [watchFileStep, hi, hw, if_neg hroom, if_true]
              exact ⟨hc1, hc2, hc3, hm1, hm2, hm3, hm4, hm5, hcl, hin,
                hacc, hl1, hl2⟩
          · simp only [watchFileStep, hi, hw, if_false]
            exact ⟨hc1, hc2, hc3, hm1, hm2, hm3, hm4, hm5, hcl, hin, hacc,
              hl1, hl2⟩

theorem sysInv_step (s : Server) (t : Tid) (h : SysInv s) :
    SysInv (step s t) := by
  cases t with
  | coord => exact sysInv_coordStep s h
  | main => exact sysInv_mainStep s h
  | watcher => exact sysInv_watchFileStep s h

theorem sysInv_run (sched : List Tid) :
    ∀ s : Server, SysInv s → SysInv (run s sched) := by
  induction sched with
  | nil => intro s h; exact h
  | cons t ts ih =>
      intro s h
      exact ih (step s t) (sysInv_step s t h)

/-- Every state reachable from a freshly constructed server, along any
interleaving, satisfies the invariant. -/
theorem sysInv_reach (filename : String) (bindErr : Option String)
    (inputs : List WatchInput) (sched : List Tid) :
    SysInv (run (initSys filename bindErr inputs) sched) :=
  sysInv_run sched _ (sysInv_initSys filename bindErr inputs)

/-- No step of any task writes the `bindErr` environment field. -/
theorem step_bindErr (s : Server) (t : Tid) :
    (step s t).bindErr = s.bindErr := by
  cases t with
  | coord =>
      simp only [step, coordStep]
      cases s.coordPC with
      | clearH => rfl
      | rebuildRecv => cases s.ReloadFile <;> rfl
      | sigSend =>
          by_cases hroom : s.reloadServe.length < reloadServeCap <;>
            simp [hroom]
  | main =>
      simp only [step, mainStep]
      cases s.mainPC with
      | rebuildRecv => cases s.ReloadFile <;> rfl
      | bindStep => cases s.bindErr <;> rfl
      | spawnStep => rfl
      | serveRecv => cases s.reloadServe <;> rfl
      | retErr e => rfl
  | watcher =>
      simp only [step, watchFileStep]
      cases hi : s.inputs with
      | nil => rfl
      | cons x rest =>
          cases x with
          | err e => rfl
          | ev ev =>
              by_cases hw : isWriteEvent ev
              · by_cases hroom : s.ReloadFile.length < reloadFileCap <;>
                  simp [hw, hroom]
              · simp [hw]

theorem run_bindErr (sched : List Tid) :
    ∀ s : Server, (run s sched).bindErr = s.bindErr := by
  induction sched with
  | nil => intro s; rfl
  | cons t ts ih =>
      intro s
      calc (run (step s t) ts).bindErr = (step s t).bindErr := ih (step s t)
        _ = s.bindErr := step_bindErr s t

/-- Counter facts every invariant state satisfies, in the order: the three
cyclic coordinator-loop inequalities, receives bounded by sends, spawns
bounded by receives plus the initial one, spawns bounded by completed
installs, at most one bind, no close, and what one spawned serve cycle
implies. -/
theorem sysInv_facts (s : Server) (h : SysInv s) :
    s.sigSends ≤ s.coordRets ∧ s.coordRets ≤ s.clears ∧
      s.clears ≤ s.sigSends + 1 ∧ s.sigRecvs ≤ s.sigSends ∧
      s.spawns ≤ s.sigRecvs + 1 ∧ s.spawns ≤ s.installs ∧
      s.binds ≤ 1 ∧ s.closes = 0 ∧
      (1 ≤ s.spawns → s.mainRets = 1 ∧ s.binds = 1 ∧ s.bindErr = none) := by
  obtain ⟨hc1, hc2, hc3, hm1, hm2, hm3, hm4, hm5, hcl, hin, hacc, hl1, hl2⟩ := h
  have hcc : s.sigSends ≤ s.coordRets ∧ s.coordRets ≤ s.clears ∧
      s.clears ≤ s.sigSends + 1 := by
    cases hpc : s.coordPC with
    | clearH =>
        obtain ⟨e1, e2⟩ := hc1 hpc
        omega
    | rebuildRecv =>
        obtain ⟨e1, e2⟩ := hc2 hpc
        omega
    | sigSend =>
        obtain ⟨e1, e2⟩ := hc3 hpc
        omega
  have hmm : s.spawns ≤ s.sigRecvs + 1 ∧ s.binds ≤ 1 ∧
      (s.spawns = 0 ∨
        (s.mainRets = 1 ∧ s.binds = 1 ∧ s.bindErr = none)) := by
    cases hpc : s.mainPC with
    | rebuildRecv =>
        obtain ⟨e1, e2, e3, e4⟩ := hm1 hpc
        exact ⟨by omega, by omega, Or.inl e3⟩
    | bindStep =>
        obtain ⟨e1, e2, e3, e4⟩ := hm2 hpc
        exact ⟨by omega, by omega, Or.inl e3⟩
    | spawnStep =>
        obtain ⟨e1, e2, e3, e4⟩ := hm3 hpc
        exact ⟨by omega, by omega, Or.inr ⟨e1, e2, e3⟩⟩
    | serveRecv =>
        obtain ⟨e1, e2, e3, e4⟩ := hm4 hpc
        exact ⟨by omega, by omega, Or.inr ⟨e1, e2, e3⟩⟩
    | retErr e =>
        obtain ⟨e1, e2, e3, e4, e5⟩ := hm5 e hpc
        exact ⟨by omega, by omega, Or.inl e4⟩
  obtain ⟨ha1, ha2, ha3⟩ := hcc
  obtain ⟨hb1, hb2, hb3⟩ := hmm
  refine ⟨ha1, ha2, ha3, by omega, hb1, ?_, hb2, hcl, ?_⟩
  · rcases hb3 with h0 | ⟨hr1, hr2, hr3⟩ <;> omega
  · intro hs
    rcases hb3 with h0 | hok
    · omega
    · exact hok

/-- The terminal returned-error state pins the environment bind error, the
single bind attempt, and the absence of serve cycles. -/
theorem sysInv_retErr (s : Server) (h : SysInv s) (e : String)
    (hpc : s.mainPC = MainPC.retErr e) :
    s.bindErr = some e ∧ s.binds = 1 ∧ s.spawns = 0 := by
  obtain ⟨hc1, hc2, hc3, hm1, hm2, hm3, hm4, hm5, htail⟩ := h
  obtain ⟨e1, e2, e3, e4, e5⟩ := hm5 e hpc
  exact ⟨e1, e3, e4⟩

/-- C1: in every iteration of the reload-coordinator loop (lines 41-46),
along every interleaving of the three tasks, the three steps occur in
strict cyclic order: clear handler (line 43), rebuild-callback return
(line 44), rendezvous send (line 45).  For monotone unit-increment event
counters, holding at every reachable state, these inequalities say exactly
that the i-th rendezvous send follows the i-th rebuild return, the i-th
rebuild return follows the i-th handler clear, and the clear of the next
iteration follows the send of the previous one. -/
theorem c1_coordinator_loop_order (filename : String)
    (bindErr : Option String) (inputs : List WatchInput) (sched : List Tid) :
    (run (initSys filename bindErr inputs) sched).sigSends ≤
        (run (initSys filename bindErr inputs) sched).coordRets ∧
      (run (initSys filename bindErr inputs) sched).coordRets ≤
        (run (initSys filename bindErr inputs) sched).clears ∧
      (run (initSys filename bindErr inputs) sched).clears ≤
        (run (initSys filename bindErr inputs) sched).sigSends + 1 := by
  obtain ⟨f1, f2, f3, f4, f5, f6, f7, f8, f9⟩ :=
    sysInv_facts _ (sysInv_reach filename bindErr inputs sched)
  exact ⟨f1, f2, f3⟩

/-- C2 is refuted as stated: its parenthetical promises that the Accept
Loop never serves against the cleared nil handler of the next cycle, but
because `reloadServe` is a buffered channel the coordinator can complete
its send (line 45) and clear the handler again (line 43) before the main
task, woken from line 74, spawns the serve cycle.  In this concrete
ten-step interleaving the second serve cycle is spawned while the server
holds the cleared `nil` handler (`spawned = [some 1, none]`), after the
coordinator already performed the second clear (`clears = 2`). -/
theorem c2_counterexample :
    (run (initSys "f" none [wEv "e1"])
        [Tid.main, Tid.main, Tid.main, Tid.watcher, Tid.coord, Tid.coord,
          Tid.coord, Tid.coord, Tid.main, Tid.main]).spawned =
      [some 1, none] ∧
      (run (initSys "f" none [wEv "e1"])
        [Tid.main, Tid.main, Tid.main, Tid.watcher, Tid.coord, Tid.coord,
          Tid.coord, Tid.coord, Tid.main, Tid.main]).clears = 2 := by
  decide

/-- C2 (amended): the happens-before part of the claim holds: for every
cycle, `install(handler_i)` happens-before `spawn(serveCycle_i)` — at every
reachable state, along every interleaving, the number of spawned serve
cycles never exceeds the number of completed handler installations; each
spawn beyond the first is enabled by a distinct rendezvous receive, each
receive by a distinct send, and each send by a distinct completed
coordinator rebuild, while the first spawn requires the completed initial
rebuild.  What fails is only the parenthetical: a spawned serve cycle can
still observe the cleared nil handler of the next cycle (see the
counterexample). -/
theorem c2_install_before_spawn (filename : String)
    (bindErr : Option String) (inputs : List WatchInput) (sched : List Tid) :
    (run (initSys filename bindErr inputs) sched).spawns ≤
        (run (initSys filename bindErr inputs) sched).installs ∧
      (run (initSys filename bindErr inputs) sched).sigRecvs ≤
        (run (initSys filename bindErr inputs) sched).sigSends ∧
      (run (initSys filename bindErr inputs) sched).sigSends ≤
        (run (initSys filename bindErr inputs) sched).coordRets ∧
      (run (initSys filename bindErr inputs) sched).spawns ≤
        (run (initSys filename bindErr inputs) sched).sigRecvs + 1 ∧
      (1 ≤ (run (initSys filename bindErr inputs) sched).spawns →
        (run (initSys filename bindErr inputs) sched).mainRets = 1) := by
  obtain ⟨f1, f2, f3, f4, f5, f6, f7, f8, f9⟩ :=
    sysInv_facts _ (sysInv_reach filename bindErr inputs sched)
  exact ⟨f6, f4, f1, f5, fun hs => (f9 hs).1⟩

theorem c2_install_before_spawn_witness :
    1 ≤ (run (initSys "f" none []) [Tid.main, Tid.main, Tid.main]).spawns ∧
      (run (initSys "f" none [])
        [Tid.main, Tid.main, Tid.main]).mainRets = 1 :=
  ⟨by decide,
    (c2_install_before_spawn "f" none []
      [Tid.main, Tid.main, Tid.main]).2.2.2.2 (by decide)⟩

/-- C3: along every interleaving with a bindable address, `net.Listen`
(line 63) is called at most once, it has been called exactly once as soon
as any serve cycle exists, and the listener is never closed (the deferred
`Close` of line 69 only runs if `listenAndServe` returns, which after a
successful bind never happens); hence every serve cycle runs on the one
listener and no bind call follows the first. -/
theorem c3_single_bind (filename : String) (inputs : List WatchInput)
    (sched : List Tid) :
    (run (initSys filename none inputs) sched).binds ≤ 1 ∧
      (run (initSys filename none inputs) sched).closes = 0 ∧
      (1 ≤ (run (initSys filename none inputs) sched).spawns →
        (run (initSys filename none inputs) sched).binds = 1) := by
  obtain ⟨f1, f2, f3, f4, f5, f6, f7, f8, f9⟩ :=
    sysInv_facts _ (sysInv_reach filename none inputs sched)
  exact ⟨f7, f8, fun hs => (f9 hs).2.1⟩

theorem c3_single_bind_witness :
    1 ≤ (run (initSys "f" none []) [Tid.main, Tid.main, Tid.main]).spawns ∧
      (run (initSys "f" none []) [Tid.main, Tid.main, Tid.main]).binds = 1 :=
  ⟨by decide,
    (c3_single_bind "f" [] [Tid.main, Tid.main, Tid.main]).2.2 (by decide)⟩

/-- C4 is refuted as stated: the rebuild callback is not invoked exactly
once before the first serve cycle starts.  The coordinator goroutine is
spawned (line 40) before the initial callback invocation of line 49, so in
this interleaving the goroutine's first loop iteration consumes the seeded
`ReloadFile` entry and completes a rebuild, a write event then lets the
main task's invocation complete as well — two completed rebuild
invocations (`coordRets = 1` and `mainRets = 1`) while `spawns = 0` — and
only afterwards, in the extended schedule, is the first serve cycle
spawned, still with exactly those two completed invocations. -/
theorem c4_counterexample :
    (run (initSys "f" none [wEv "e1"])
        [Tid.coord, Tid.coord, Tid.coord, Tid.coord, Tid.watcher,
          Tid.main]).spawns = 0 ∧
      (run (initSys "f" none [wEv "e1"])
        [Tid.coord, Tid.coord, Tid.coord, Tid.coord, Tid.watcher,
          Tid.main]).coordRets = 1 ∧
      (run (initSys "f" none [wEv "e1"])
        [Tid.coord, Tid.coord, Tid.coord, Tid.coord, Tid.watcher,
          Tid.main]).mainRets = 1 ∧
      (run (initSys "f" none [wEv "e1"])
        [Tid.coord, Tid.coord, Tid.coord, Tid.coord, Tid.watcher,
          Tid.main, Tid.main, Tid.main]).spawns = 1 ∧
      (run (initSys "f" none [wEv "e1"])
          [Tid.coord, Tid.coord, Tid.coord, Tid.coord, Tid.watcher,
            Tid.main, Tid.main, Tid.main]).coordRets +
        (run (initSys "f" none [wEv "e1"])
          [Tid.coord, Tid.coord, Tid.coord, Tid.coord, Tid.watcher,
            Tid.main, Tid.main, Tid.main]).mainRets = 2 := by
  decide

/-- C4 (amended): at least one rebuild-callback invocation completes before
the first serve cycle starts — along every interleaving, a state with a
spawned serve cycle has the initial invocation of line 49 returned and at
least one handler installed — and that first invocation is independent of
any change event: with an empty event stream, three main-task steps alone
complete the initial rebuild (consuming only the seeded filename) and start
the first serve cycle.  Exactly-once fails (see the counterexample): the
concurrently spawned reload loop can complete a second invocation first. -/
theorem c4_initial_rebuild (filename : String) (bindErr : Option String)
    (inputs : List WatchInput) (sched : List Tid) :
    (1 ≤ (run (initSys filename bindErr inputs) sched).spawns →
        (run (initSys filename bindErr inputs) sched).mainRets = 1 ∧
          1 ≤ (run (initSys filename bindErr inputs) sched).installs) ∧
      (run (initSys "g" none []) [Tid.main, Tid.main, Tid.main]).spawns =
        1 ∧
      (run (initSys "g" none []) [Tid.main, Tid.main, Tid.main]).installs =
        1 ∧
      (run (initSys "g" none [])
        [Tid.main, Tid.main, Tid.main]).recvNames = ["g"] := by
  obtain ⟨f1, f2, f3, f4, f5, f6, f7, f8, f9⟩ :=
    sysInv_facts _ (sysInv_reach filename bindErr inputs sched)
  exact ⟨fun hs => ⟨(f9 hs).1, le_trans hs f6⟩, by decide, by decide,
    by decide⟩

theorem c4_initial_rebuild_witness :
    1 ≤ (run (initSys "f" none []) [Tid.main, Tid.main, Tid.main]).spawns ∧
      (run (initSys "f" none [])
        [Tid.main, Tid.main, Tid.main]).mainRets = 1 :=
  ⟨by decide,
    ((c4_initial_rebuild "f" none [] [Tid.main, Tid.main, Tid.main]).1
      (by decide)).1⟩

/-- C5 is refuted as stated: a second change event produced while a
previous `ChangeEvent` is still unconsumed is NOT dropped, because the send
on line 86 is a blocking send, and the coordinator can observe both events.
Concretely: after the first serve cycle starts, write event `e1` fills the
channel; the attempted delivery of `e2` while `e1` is unconsumed is a
disabled step (the buffer is still `[e1]` and `e2` stays pending in the
watcher, not discarded); once the coordinator consumes `e1` the watcher
delivers `e2`, and the coordinator's rebuilds receive both
(`recvNames = [f, e1, e2]`, `coordRets = 2`). -/
theorem c5_counterexample :
    (run (initSys "f" none [wEv "e1", wEv "e2"])
        [Tid.main, Tid.main, Tid.main, Tid.watcher,
          Tid.watcher]).ReloadFile = ["e1"] ∧
      (run (initSys "f" none [wEv "e1", wEv "e2"])
        [Tid.main, Tid.main, Tid.main, Tid.watcher, Tid.watcher]).inputs =
        [wEv "e2"] ∧
      (run (initSys "f" none [wEv "e1", wEv "e2"])
        [Tid.main, Tid.main, Tid.main, Tid.watcher, Tid.watcher, Tid.coord,
          Tid.coord, Tid.watcher, Tid.coord, Tid.coord,
          Tid.coord]).recvNames = ["f", "e1", "e2"] ∧
      (run (initSys "f" none [wEv "e1", wEv "e2"])
        [Tid.main, Tid.main, Tid.main, Tid.watcher, Tid.watcher, Tid.coord,
          Tid.coord, Tid.watcher, Tid.coord, Tid.coord,
          Tid.coord]).coordRets = 2 := by
  decide

/-- C5 (amended): the `ReloadFile` channel has depth 1, so at most one
`ChangeEvent` is ever pending in it, along every interleaving; but a second
change event produced while a previous one is unconsumed is not dropped:
the watch loop's blocking send (line 86) is simply disabled until the slot
frees — the step leaves the state unchanged, the event stays pending — so
the coordinator eventually observes both events (see the counterexample).
Only the OS-level watcher outside this repository could drop events. -/
theorem c5_depth_one_blocking_send (filename : String)
    (bindErr : Option String) (inputs : List WatchInput) (sched : List Tid)
    (s : Server) (ev : FsEvent) (rest : List WatchInput) :
    (run (initSys filename bindErr inputs) sched).ReloadFile.length ≤ 1 ∧
      (s.inputs = WatchInput.ev ev :: rest → isWriteEvent ev = true →
        1 ≤ s.ReloadFile.length → watchFileStep s = s) := by
  constructor
  · obtain ⟨hc1, hc2, hc3, hm1, hm2, hm3, hm4, hm5, hcl, hin, hacc, hl1,
      hl2⟩ := sysInv_reach filename bindErr inputs sched
    exact hl2
  · intro hi hw hfull
    have hnc : ¬ (s.ReloadFile.length < reloadFileCap) := by
      show ¬ (s.ReloadFile.length < 1)
      omega
    simp only [watchFileStep, hi, hw, if_true, if_neg hnc]

theorem c5_depth_one_blocking_send_witness :
    watchFileStep (initSys "f" none [wEv "e2"]) =
      initSys "f" none [wEv "e2"] :=
  (c5_depth_one_blocking_send "f" none [] []
      (initSys "f" none [wEv "e2"])
      { op := fsnotifyWrite, name := "e2" } []).2 rfl (by decide)
    (by decide)

/-- C6 is refuted as stated: the rendezvous signal is not an unbuffered
handshake — `reloadServe` is a buffered channel of capacity 1, so a send
does not block until the Accept Loop's receive.  Concretely, four
coordinator steps alone (the main task never gets past line 49, the
watcher never runs) complete a full loop iteration: the send of line 45
completes with no receive ever performed (`sigSends = 1`, `sigRecvs = 0`,
the signal sits in the buffer) and the coordinator has already advanced to
the next iteration's handler clear (`clears = 2`). -/
theorem c6_counterexample :
    (run (initSys "f" none [])
        [Tid.coord, Tid.coord, Tid.coord, Tid.coord]).sigSends = 1 ∧
      (run (initSys "f" none [])
        [Tid.coord, Tid.coord, Tid.coord, Tid.coord]).sigRecvs = 0 ∧
      (run (initSys "f" none [])
        [Tid.coord, Tid.coord, Tid.coord, Tid.coord]).clears = 2 ∧
      (run (initSys "f" none [])
        [Tid.coord, Tid.coord, Tid.coord,
          Tid.coord]).reloadServe.length = 1 := by
  decide

/-- C6 (amended): the reload signal is zero-payload (the channel carries
`Unit` values, Go `chan struct` with empty braces) and single-slot, but
buffered: along every interleaving at most one signal is ever buffered and
every signal is either still buffered or was received
(`sigSends = sigRecvs + buffered`), and the send blocks exactly when the
slot is already full — a coordinator poised at the send with a full slot
cannot move — while a send into the empty slot completes without any
rendezvous with the receiver (see the counterexample). -/
theorem c6_single_slot_buffered_signal (filename : String)
    (bindErr : Option String) (inputs : List WatchInput) (sched : List Tid)
    (s : Server) :
    (run (initSys filename bindErr inputs) sched).reloadServe.length ≤ 1 ∧
      (run (initSys filename bindErr inputs) sched).sigSends =
        (run (initSys filename bindErr inputs) sched).sigRecvs +
          (run (initSys filename bindErr inputs) sched).reloadServe.length ∧
      (s.coordPC = CoordPC.sigSend → s.reloadServe.length = 1 →
        coordStep s = s) := by
  refine ⟨?_, ?_, ?_⟩
  · obtain ⟨hc1, hc2, hc3, hm1, hm2, hm3, hm4, hm5, hcl, hin, hacc, hl1,
      hl2⟩ := sysInv_reach filename bindErr inputs sched
    exact hl1
  · obtain ⟨hc1, hc2, hc3, hm1, hm2, hm3, hm4, hm5, hcl, hin, hacc, hl1,
      hl2⟩ := sysInv_reach filename bindErr inputs sched
    exact hacc
  · intro hpc hfull
    have hnc : ¬ (s.reloadServe.length < reloadServeCap) := by
      show ¬ (s.reloadServe.length < 1)
      omega
    simp only [coordStep, hpc, if_neg hnc]

/-- Helper state for the C6 witness: a coordinator poised at the send with
the signal slot already full. -/
def fullSlotState : Server :=
  { initSys "f" none [] with
    coordPC := CoordPC.sigSend
    reloadServe := [()] }

theorem c6_single_slot_buffered_signal_witness :
    coordStep fullSlotState = fullSlotState :=
  (c6_single_slot_buffered_signal "f" none [] [] fullSlotState).2.2
    (by rfl) (by rfl)

/-- C7: `listenAndServe` substitutes `:http` for an empty address
(lines 59-62) and returns an error exactly when the bind fails: with a
failing environment (`bindErr = some e`), along every interleaving, no
serve cycle ever starts, `net.Listen` is attempted at most once (no
retry), any returned error is the bind error itself, and the error state
is actually reached by running the main task; with a succeeding
environment the call never returns along any interleaving. -/
theorem c7_bind_error_propagation (a : String) (filename : String)
    (e : String) (inputs : List WatchInput) (sched : List Tid)
    (x : String) :
    effectiveAddr "" = ":http" ∧
      (a ≠ "" → effectiveAddr a = a) ∧
      (run (initSys filename (some e) inputs) sched).spawns = 0 ∧
      (run (initSys filename (some e) inputs) sched).binds ≤ 1 ∧
      ((run (initSys filename (some e) inputs) sched).mainPC =
          MainPC.retErr x → x = e) ∧
      (run (initSys "f" (some "eaddrinuse") [])
          [Tid.main, Tid.main]).mainPC = MainPC.retErr "eaddrinuse" ∧
      (run (initSys filename none inputs) sched).mainPC ≠
        MainPC.retErr x := by
  have hbe : (run (initSys filename (some e) inputs) sched).bindErr =
      some e := run_bindErr sched (initSys filename (some e) inputs)
  have hbn : (run (initSys filename none inputs) sched).bindErr = none :=
    run_bindErr sched (initSys filename none inputs)
  obtain ⟨f1, f2, f3, f4, f5, f6, f7, f8, f9⟩ :=
    sysInv_facts _ (sysInv_reach filename (some e) inputs sched)
  refine ⟨rfl, ?_, ?_, f7, ?_, by decide, ?_⟩
  · intro ha
    simp [effectiveAddr, ha]
  · by_contra hs
    have h1 : 1 ≤ (run (initSys filename (some e) inputs) sched).spawns :=
      Nat.one_le_iff_ne_zero.mpr hs
    have := (f9 h1).2.2
    rw [hbe] at this
    exact Option.noConfusion this
  · intro hpc
    obtain ⟨g1, g2, g3⟩ :=
      sysInv_retErr _ (sysInv_reach filename (some e) inputs sched) x hpc
    rw [hbe] at g1
    exact (Option.some.injEq _ _ ▸ g1).symm
  · intro hpc
    obtain ⟨g1, g2, g3⟩ :=
      sysInv_retErr _ (sysInv_reach filename none inputs sched) x hpc
    rw [hbn] at g1
    exact Option.noConfusion g1

theorem c7_bind_error_propagation_witness :
    effectiveAddr "127.0.0.1:8080" = "127.0.0.1:8080" ∧
      (run (initSys "f" (some "boom") [])
        [Tid.main, Tid.main]).spawns = 0 ∧
      ((run (initSys "f" (some "boom") [])
          [Tid.main, Tid.main]).mainPC = MainPC.retErr "boom" →
        ("boom" : String) = "boom") ∧
      (run (initSys "f" none []) []).mainPC ≠ MainPC.retErr "x" :=
  ⟨(c7_bind_error_propagation "127.0.0.1:8080" "f" "boom" []
      [Tid.main, Tid.main] "boom").2.1 (by decide),
    (c7_bind_error_propagation "127.0.0.1:8080" "f" "boom" []
      [Tid.main, Tid.main] "boom").2.2.1,
    (c7_bind_error_propagation "127.0.0.1:8080" "f" "boom" []
      [Tid.main, Tid.main] "boom").2.2.2.2.1,
    (c7_bind_error_propagation "127.0.0.1:8080" "f" "boom" [] []
      "x").2.2.2.2.2.2⟩

/-- C8: a watcher-internal error is non-fatal: for every state whose next
watcher input is an error, the watcher step only appends the log line of
line 89 and advances past the input — channels, handler, counters and both
other tasks are untouched, and the watch loop keeps processing the rest of
the stream.  Concretely, after an injected error the next genuine write
event is still delivered into `ReloadFile`. -/
theorem c8_watcher_error_nonfatal (s : Server) (e : String)
    (rest : List WatchInput) :
    (s.inputs = WatchInput.err e :: rest →
        watchFileStep s =
          { s with inputs := rest,
                   logs := s.logs ++ ["Watcher Error: " ++ e] }) ∧
      (run (initSys "f" none [WatchInput.err "boom", wEv "e1"])
          [Tid.main, Tid.watcher, Tid.watcher]).ReloadFile = ["e1"] ∧
      (run (initSys "f" none [WatchInput.err "boom", wEv "e1"])
          [Tid.main, Tid.watcher, Tid.watcher]).logs =
        ["Watcher Error: boom", "Reloading the file..."] ∧
      (run (initSys "f" none [WatchInput.err "boom", wEv "e1"])
          [Tid.main, Tid.watcher, Tid.watcher]).inputs = [] := by
  refine ⟨?_, by decide, by decide, by decide⟩
  intro hi
  simp only [watchFileStep, hi]

theorem c8_watcher_error_nonfatal_witness :
    watchFileStep (initSys "f" none [WatchInput.err "x"]) =
      { initSys "f" none [WatchInput.err "x"] with
        inputs := []
        logs := [] ++ ["Watcher Error: " ++ "x"] } :=
  (c8_watcher_error_nonfatal (initSys "f" none [WatchInput.err "x"]) "x"
    []).1 rfl

/-- The filter of line 84 only inspects the op bitmask, never the name. -/
theorem isWriteEvent_op (op : Nat) (n : String) :
    isWriteEvent { op := op, name := n } =
      (op &&& fsnotifyWrite == fsnotifyWrite) :=
  rfl

/-- C9: for every raw watcher event arriving while the channel has room, a
`ChangeEvent` is emitted if and only if the event's op has the write bit
set (the guard of line 84), the emitted entry carries the event's path
(line 86), and a plain write op passes the filter while rename, chmod,
remove and create ops do not. -/
theorem c9_write_events_only (s : Server) (ev : FsEvent)
    (rest : List WatchInput) (n : String) :
    (s.inputs = WatchInput.ev ev :: rest → s.ReloadFile = [] →
        watchFileStep s =
          (if isWriteEvent ev then
            { s with ReloadFile := s.ReloadFile ++ [ev.name],
                     inputs := rest,
                     logs := s.logs ++ ["Reloading the file..."] }
          else { s with inputs := rest })) ∧
      isWriteEvent { op := fsnotifyWrite, name := n } = true ∧
      isWriteEvent { op := fsnotifyRename, name := n } = false ∧
      isWriteEvent { op := fsnotifyChmod, name := n } = false ∧
      isWriteEvent { op := fsnotifyRemove, name := n } = false ∧
      isWriteEvent { op := fsnotifyCreate, name := n } = false := by
  refine ⟨?_, by rw [isWriteEvent_op]; decide, by rw [isWriteEvent_op]; decide,
    by rw [isWriteEvent_op]; decide, by rw [isWriteEvent_op]; decide,
    by rw [isWriteEvent_op]; decide⟩
  intro hi hrf
  cases hw : isWriteEvent ev with
  | true =>
      have hcond : s.ReloadFile.length < reloadFileCap := by
        rw [hrf]
        decide
      simp only [watchFileStep, hi, hw, if_pos hcond, if_true]
  | false =>
      simp only [watchFileStep, hi, hw, Bool.false_eq_true, if_false]

theorem c9_write_events_only_witness :
    (watchFileStep { initSys "f" none [wEv "a"] with
        ReloadFile := [] }).ReloadFile = ["a"] ∧
      (watchFileStep { initSys "f" none [wEv "a"] with
        ReloadFile := [] }).logs = ["Reloading the file..."] := by
  rw [(c9_write_events_only
      { initSys "f" none [wEv "a"] with ReloadFile := [] }
      { op := fsnotifyWrite, name := "a" } [] "a").1 rfl rfl]
  exact ⟨by decide, by decide⟩

/-- C10: right after `New filename` returns, the `ReloadFile` channel holds
exactly one pending entry, the watched filename itself (pre-sent on
line 112 into the capacity-1 channel of line 99), so the very first
blocking receive — here the initial rebuild invocation of line 49 —
completes immediately with the watched path, before any watcher step and
hence before any file change. -/
theorem c10_seeded_reload_channel (filename : String)
    (bindErr : Option String) (inputs : List WatchInput) :
    newReloadFile filename = [filename] ∧
      (initSys filename bindErr inputs).ReloadFile = [filename] ∧
      (mainStep (initSys filename bindErr inputs)).recvNames =
        [filename] ∧
      (mainStep (initSys filename bindErr inputs)).ReloadFile = [] ∧
      (mainStep (initSys filename bindErr inputs)).mainRets = 1 :=
  ⟨rfl, rfl, rfl, rfl, rfl⟩
